import Mathlib

/-!
Shallow embedding of the SHiP-RRIP cache replacement policy
(`src/new_policy.cc`, canonical improved variant) and of the eviction-time
SHCT learning step of the baseline variant
(`src/015_ship_rrip__signature_based_hit_predictor_with_srrip.cc`).

Machine integers are modelled as `Nat`; the C `& (SHCT_SIZE - 1)` mask on a
power-of-two table size is exact modulo reduction and is written `% SHCT_SIZE`;
the `(uint32)` cast is written `% 2 ^ 32`; the `uint64` statistics counters
increment modulo `2 ^ 64`.  Global arrays become total functions from index
triples, mutated by pointwise functional update.
-/

namespace ShipRRIP

/-- `NUM_CORE` from new_policy.cc. -/
def NUM_CORE : Nat := 1

/-- `LLC_SETS = NUM_CORE * 2048`. -/
def LLC_SETS : Nat := NUM_CORE * 2048

/-- `LLC_WAYS = 16`. -/
def LLC_WAYS : Nat := 16

/-- `RRPV_BITS = 3`. -/
def RRPV_BITS : Nat := 3

/-- `MAX_RRPV = (1 << RRPV_BITS) - 1 = 7`. -/
def MAX_RRPV : Nat := 2 ^ RRPV_BITS - 1

/-- `SHCT_SIZE = 1024` (power of two, so masking with `SHCT_SIZE - 1` is `% SHCT_SIZE`). -/
def SHCT_SIZE : Nat := 1024

/-- `SHCT_MAX = 7`. -/
def SHCT_MAX : Nat := 7

/-- `SHCT_INIT = 4`. -/
def SHCT_INIT : Nat := 4

/-- `THRESHOLD = SHCT_INIT`. -/
def THRESHOLD : Nat := SHCT_INIT

/-- `SIGN_SHIFT = 4`. -/
def SIGN_SHIFT : Nat := 4

/-- The policy's global mutable state: the three per-(core,set,way) arrays
`repl_rrpv`, `repl_sig`, `repl_reused`, the global `SHCT` table, and the two
statistics counters. -/
structure PolicyState where
  repl_rrpv   : Nat → Nat → Nat → Nat
  repl_sig    : Nat → Nat → Nat → Nat
  repl_reused : Nat → Nat → Nat → Nat
  SHCT        : Nat → Nat
  stat_hits   : Nat
  stat_misses : Nat

/-- Pointwise update of a per-(core,set,way) array at one slot. -/
def updLine (f : Nat → Nat → Nat → Nat) (cpu set way v : Nat) : Nat → Nat → Nat → Nat :=
  fun c st w => if c = cpu ∧ st = set ∧ w = way then v else f c st w

/-- Pointwise update of the SHCT table at one index. -/
def updTab (f : Nat → Nat) (i v : Nat) : Nat → Nat :=
  fun j => if j = i then v else f j

/-- `InitReplacementState` (new_policy.cc lines 34-51): zero the statistics,
set every line to `rrpv = MAX_RRPV`, `signature = 0`, `reused = 0`, and every
SHCT entry to `SHCT_INIT`. -/
def InitReplacementState : PolicyState where
  repl_rrpv   := fun _ _ _ => MAX_RRPV
  repl_sig    := fun _ _ _ => 0
  repl_reused := fun _ _ _ => 0
  SHCT        := fun _ => SHCT_INIT
  stat_hits   := 0
  stat_misses := 0

/-- `sat_inc` (new_policy.cc lines 54-56): increment, clamped at `max_v`. -/
def sat_inc (c max_v : Nat) : Nat :=
  if c < max_v then c + 1 else c

/-- `sat_dec` (new_policy.cc lines 57-59): decrement, clamped at 0. -/
def sat_dec (c : Nat) : Nat :=
  if c > 0 then c - 1 else c

/-- One scan of the set's `LLC_WAYS` lines in way order for the first line with
`rrpv == MAX_RRPV` (the inner `for (w ...)` loops of `GetVictimInSet`). -/
def findMaxWay (s : PolicyState) (cpu set : Nat) : Option Nat :=
  (List.range LLC_WAYS).find? (fun w => s.repl_rrpv cpu set w == MAX_RRPV)

/-- The `+1` aging pass of `GetVictimInSet` (new_policy.cc lines 79-83):
every way of the targeted set with `rrpv < MAX_RRPV` is incremented. -/
def agePlusOne (s : PolicyState) (cpu set : Nat) : PolicyState :=
  { s with repl_rrpv := fun c st w =>
      if c = cpu ∧ st = set ∧ w < LLC_WAYS ∧ s.repl_rrpv c st w < MAX_RRPV then
        s.repl_rrpv c st w + 1
      else s.repl_rrpv c st w }

/-- The stronger `+2` saturating aging pass of `GetVictimInSet`
(new_policy.cc lines 85-90): every way of the targeted set with
`rrpv < MAX_RRPV` gets `rrpv + 2`, clamped at `MAX_RRPV`. -/
def agePlusTwo (s : PolicyState) (cpu set : Nat) : PolicyState :=
  { s with repl_rrpv := fun c st w =>
      if c = cpu ∧ st = set ∧ w < LLC_WAYS ∧ s.repl_rrpv c st w < MAX_RRPV then
        (if s.repl_rrpv c st w + 2 > MAX_RRPV then MAX_RRPV else s.repl_rrpv c st w + 2)
      else s.repl_rrpv c st w }

/-- `GetVictimInSet` (new_policy.cc lines 62-95).  The `for (attempt < 2)`
loop unrolled: scan; if nothing found age by `+1`; scan again; if still
nothing found age by `+2` and fall through to `return 0`.  Returns the chosen
way together with the state as mutated by the aging passes.  `PC`, `paddr`
and `accessType` are accepted but not consulted, as in the source. -/
def GetVictimInSet (s : PolicyState) (cpu set : Nat)
    (PC paddr accessType : Nat) : Nat × PolicyState :=
  match findMaxWay s cpu set with
  | some w => (w, s)
  | none =>
    match findMaxWay (agePlusOne s cpu set) cpu set with
    | some w => (w, agePlusOne s cpu set)
    | none => (0, agePlusTwo (agePlusOne s cpu set) cpu set)

/-- The fallback path of `GetVictimInSet` triggers exactly when both scans
(the one on the incoming state and the one after the `+1` aging pass) find no
way at `MAX_RRPV`. -/
def fallbackTriggered (s : PolicyState) (cpu set : Nat) : Prop :=
  findMaxWay s cpu set = none ∧ findMaxWay (agePlusOne s cpu set) cpu set = none

/-- The new signature computed on the miss path
(new_policy.cc line 138): `(uint32)(PC >> SIGN_SHIFT) & (SHCT_SIZE - 1)`. -/
def computeSignature (PC : Nat) : Nat :=
  ((PC >>> SIGN_SHIFT) % 2 ^ 32) % SHCT_SIZE

/-- The eviction-time SHCT learning step of the improved variant's miss path
(new_policy.cc lines 128-135): mask the stored signature, and if the
defensive in-range check passes, saturating-increment the entry when the
evicted line was reused, saturating-decrement it otherwise. -/
def missLearnSHCT (shct : Nat → Nat) (line_sig line_reused : Nat) : Nat → Nat :=
  if line_sig % SHCT_SIZE < SHCT_SIZE then
    (if line_reused ≠ 0 then
       updTab shct (line_sig % SHCT_SIZE) (sat_inc (shct (line_sig % SHCT_SIZE)) SHCT_MAX)
     else
       updTab shct (line_sig % SHCT_SIZE) (sat_dec (shct (line_sig % SHCT_SIZE))))
  else shct

/-- The eviction-time SHCT learning step of the baseline variant's miss path
(015_ship_rrip...cc lines 98-105): unmasked indexing with explicit clamp
conditionals. -/
def baselineLearnSHCT (shct : Nat → Nat) (old_sig old_r : Nat) : Nat → Nat :=
  if old_r ≠ 0 then
    (if shct old_sig < SHCT_MAX then updTab shct old_sig (shct old_sig + 1) else shct)
  else
    (if shct old_sig > 0 then updTab shct old_sig (shct old_sig - 1) else shct)

/-- The four-tier adaptive insertion RRPV of the miss path
(new_policy.cc lines 147-157), as a function of the (post-learning) SHCT
value `pred` of the incoming signature. -/
def insertionRRPV (pred : Nat) : Nat :=
  if pred ≥ THRESHOLD + 2 then 0
  else if pred ≥ THRESHOLD then 1
  else if pred > 0 then (if MAX_RRPV ≥ 2 then MAX_RRPV - 1 else MAX_RRPV)
  else MAX_RRPV

/-- `UpdateReplacementState` (new_policy.cc lines 98-158).  On a hit: bump
`hits`, set `reused = 1`, `rrpv = 0`, and reinforce the SHCT entry of the
line's current (masked) signature.  On a miss: bump `misses`, run the SHCT
learning step for the evicted occupant, store the new signature, clear the
reuse bit, and set the insertion RRPV from the four confidence tiers of the
(post-learning) SHCT value of the new signature. -/
def UpdateReplacementState (s : PolicyState) (cpu set way : Nat)
    (paddr PC victim_addr accessType : Nat) (hit : Bool) : PolicyState :=
  if hit then
    { s with
      stat_hits := (s.stat_hits + 1) % 2 ^ 64
      repl_reused := updLine s.repl_reused cpu set way 1
      repl_rrpv := updLine s.repl_rrpv cpu set way 0
      SHCT := if s.repl_sig cpu set way % SHCT_SIZE < SHCT_SIZE then
                updTab s.SHCT (s.repl_sig cpu set way % SHCT_SIZE)
                  (sat_inc (s.SHCT (s.repl_sig cpu set way % SHCT_SIZE)) SHCT_MAX)
              else s.SHCT }
  else
    { s with
      stat_misses := (s.stat_misses + 1) % 2 ^ 64
      SHCT := missLearnSHCT s.SHCT (s.repl_sig cpu set way) (s.repl_reused cpu set way)
      repl_sig := updLine s.repl_sig cpu set way (computeSignature PC)
      repl_reused := updLine s.repl_reused cpu set way 0
      repl_rrpv := updLine s.repl_rrpv cpu set way
        (insertionRRPV
          (missLearnSHCT s.SHCT (s.repl_sig cpu set way) (s.repl_reused cpu set way)
            (computeSignature PC))) }

/-- The states reachable from `InitReplacementState` by any sequence of
victim selections and updates. -/
inductive Reachable : PolicyState → Prop where
  | init : Reachable InitReplacementState
  | victim (s : PolicyState) (cpu set PC paddr accessType : Nat) :
      Reachable s → Reachable (GetVictimInSet s cpu set PC paddr accessType).2
  | update (s : PolicyState) (cpu set way paddr PC victim_addr accessType : Nat) (hit : Bool) :
      Reachable s → Reachable (UpdateReplacementState s cpu set way paddr PC victim_addr accessType hit)

/-- The set state exhibiting the dead `+2` pass of `GetVictimInSet`: in the
targeted set, ways 0-14 hold `rrpv = 1` and way 15 holds `rrpv = 4`. -/
def c1State : PolicyState :=
  { InitReplacementState with
    repl_rrpv := fun _ _ w => if w = 15 then 4 else 1 }

/-- A set state with every line at `rrpv = 1`, on which both scans of
`GetVictimInSet` fail. -/
def allLowState : PolicyState :=
  { InitReplacementState with
    repl_rrpv := fun _ _ _ => 1 }

/-- The `while (true)` find-or-age loop of the baseline variant's
`GetVictimInSet` (015_ship_rrip...cc lines 63-75): scan the set for a line
with `rrpv == MAX_RRPV`; if none, age every line of the set by `+1`
(saturating at `MAX_RRPV`, the same pass as `agePlusOne`) and repeat.  The
loop is written with explicit fuel because the C loop, run on an arbitrary
state, need not terminate; on any state whose RRPVs are bounded by
`MAX_RRPV` (an invariant of the baseline's reachable states) the scan
succeeds within `MAX_RRPV + 1` iterations, so the fuel-exhaustion default is
never taken there. -/
def baselineVictimLoop : Nat → PolicyState → Nat → Nat → Nat × PolicyState
  | 0, s, _, _ => (0, s)
  | fuel + 1, s, cpu, set =>
    match findMaxWay s cpu set with
    | some w => (w, s)
    | none => baselineVictimLoop fuel (agePlusOne s cpu set) cpu set

/-- The baseline variant's `GetVictimInSet` (015_ship_rrip...cc lines
54-76): the find-or-age loop, run with the `MAX_RRPV + 1` iterations it needs
on RRPV-bounded states.  `PC`, `paddr` and `accessType` are accepted but not
consulted, as in the source. -/
def baselineGetVictimInSet (s : PolicyState) (cpu set : Nat)
    (PC paddr accessType : Nat) : Nat × PolicyState :=
  baselineVictimLoop (MAX_RRPV + 1) s cpu set

/-- The baseline variant's `UpdateReplacementState` (015_ship_rrip...cc
lines 79-116).  On a hit: bump `hits`, set `reused = 1`, `rrpv = 0` (no SHCT
reinforcement).  On a miss: bump `misses`, run the baseline learning step on
the evicted occupant's unmasked stored signature, store the new signature,
clear the reuse bit, and insert with the two-tier policy on the
(post-learning) SHCT value of the new signature: `rrpv = 0` when
`SHCT[newsig] >= THRESHOLD`, else `rrpv = MAX_RRPV - 1`. -/
def baselineUpdateReplacementState (s : PolicyState) (cpu set way : Nat)
    (paddr PC victim_addr accessType : Nat) (hit : Bool) : PolicyState :=
  if hit then
    { s with
      stat_hits := (s.stat_hits + 1) % 2 ^ 64
      repl_reused := updLine s.repl_reused cpu set way 1
      repl_rrpv := updLine s.repl_rrpv cpu set way 0 }
  else
    { s with
      stat_misses := (s.stat_misses + 1) % 2 ^ 64
      SHCT := baselineLearnSHCT s.SHCT (s.repl_sig cpu set way) (s.repl_reused cpu set way)
      repl_sig := updLine s.repl_sig cpu set way (computeSignature PC)
      repl_reused := updLine s.repl_reused cpu set way 0
      repl_rrpv := updLine s.repl_rrpv cpu set way
        (if baselineLearnSHCT s.SHCT (s.repl_sig cpu set way) (s.repl_reused cpu set way)
              (computeSignature PC) ≥ THRESHOLD
          then 0 else MAX_RRPV - 1) }

/-- The states reachable from `InitReplacementState` by any sequence of the
baseline variant's victim selections and updates. -/
inductive BaselineReachable : PolicyState → Prop where
  | init : BaselineReachable InitReplacementState
  | victim (s : PolicyState) (cpu set PC paddr accessType : Nat) :
      BaselineReachable s →
      BaselineReachable (baselineGetVictimInSet s cpu set PC paddr accessType).2
  | update (s : PolicyState) (cpu set way paddr PC victim_addr accessType : Nat)
      (hit : Bool) :
      BaselineReachable s →
      BaselineReachable
        (baselineUpdateReplacementState s cpu set way paddr PC victim_addr accessType hit)

theorem updLine_same (f : Nat → Nat → Nat → Nat) (cpu set way v : Nat) :
    updLine f cpu set way v cpu set way = v := by
  simp [updLine]

theorem updLine_other (f : Nat → Nat → Nat → Nat) (cpu set way v c st w : Nat)
    (h : ¬(c = cpu ∧ st = set ∧ w = way)) :
    updLine f cpu set way v c st w = f c st w := by
  simp only [updLine]
  exact if_neg h

theorem updTab_same (f : Nat → Nat) (i v : Nat) : updTab f i v i = v := by
  simp [updTab]

theorem updTab_other (f : Nat → Nat) (i v j : Nat) (h : j ≠ i) :
    updTab f i v j = f j := by
  simp only [updTab]
  exact if_neg h

theorem findMaxWay_some_spec {s : PolicyState} {cpu set w : Nat}
    (h : findMaxWay s cpu set = some w) :
    w < LLC_WAYS ∧ s.repl_rrpv cpu set w = MAX_RRPV := by
  have hmem := List.mem_of_find?_eq_some h
  have hp := List.find?_some h
  refine ⟨List.mem_range.mp hmem, ?_⟩
  simpa using hp

theorem sat_inc_le {c m : Nat} (h : c ≤ m) : sat_inc c m ≤ m := by
  unfold sat_inc
  split <;> omega

theorem sat_dec_le (c : Nat) : sat_dec c ≤ c := by
  unfold sat_dec
  split <;> omega

/-- Claim C1 (code bug): on a set whose ways 0-14 hold `rrpv = 1` and way 15
holds `rrpv = 4`, both scans of `GetVictimInSet` fail (so the `+2` aging pass
runs), and after the call the lowest-index way with `rrpv == MAX_RRPV` in the
mutated state is way 15 — yet the selector returned way 0: the `+2` pass is
never followed by a scan, so its result is not consulted, contradicting the
in-code comment that the way-0 fallback "should not be reached". -/
theorem c1_plus2_pass_not_consulted :
    findMaxWay c1State 0 0 = none ∧
    findMaxWay (agePlusOne c1State 0 0) 0 0 = none ∧
    (GetVictimInSet c1State 0 0 0 0 0).1 = 0 ∧
    findMaxWay (GetVictimInSet c1State 0 0 0 0 0).2 0 0 = some 15 := by
  exact ⟨by decide, by decide, by decide, by decide⟩

/-- Claim C2: for every reachable state, `GetVictimInSet` returns a way index
in `[0, LLC_WAYS)`, and unless the fallback path triggered, the returned
way's line has `rrpv == MAX_RRPV` in the state at the moment of selection
(the state the call returns). -/
theorem c2_victim_valid (s : PolicyState) (hs : Reachable s)
    (cpu set PC paddr accessType : Nat) :
    (GetVictimInSet s cpu set PC paddr accessType).1 < LLC_WAYS ∧
    (¬ fallbackTriggered s cpu set →
      (GetVictimInSet s cpu set PC paddr accessType).2.repl_rrpv cpu set
        (GetVictimInSet s cpu set PC paddr accessType).1 = MAX_RRPV) := by
  clear hs
  unfold GetVictimInSet
  cases h1 : findMaxWay s cpu set with
  | some w =>
    obtain ⟨hw, hr⟩ := findMaxWay_some_spec h1
    exact ⟨hw, fun _ => hr⟩
  | none =>
    cases h2 : findMaxWay (agePlusOne s cpu set) cpu set with
    | some w =>
      obtain ⟨hw, hr⟩ := findMaxWay_some_spec h2
      exact ⟨hw, fun _ => hr⟩
    | none =>
      refine ⟨?_, fun hnf => absurd ⟨h1, h2⟩ hnf⟩
      show (0 : Nat) < LLC_WAYS
      decide

/-- Witness for C2 at the initial state. -/
theorem c2_victim_valid_witness :
    (GetVictimInSet InitReplacementState 0 0 0 0 0).1 < LLC_WAYS ∧
    (¬ fallbackTriggered InitReplacementState 0 0 →
      (GetVictimInSet InitReplacementState 0 0 0 0 0).2.repl_rrpv 0 0
        (GetVictimInSet InitReplacementState 0 0 0 0 0).1 = MAX_RRPV) :=
  c2_victim_valid InitReplacementState Reachable.init 0 0 0 0 0

theorem agePlusOne_frame (s : PolicyState) (cpu set c st : Nat)
    (h : ¬(c = cpu ∧ st = set)) (w : Nat) :
    (agePlusOne s cpu set).repl_rrpv c st w = s.repl_rrpv c st w := by
  have he : (agePlusOne s cpu set).repl_rrpv c st w =
      if c = cpu ∧ st = set ∧ w < LLC_WAYS ∧ s.repl_rrpv c st w < MAX_RRPV then
        s.repl_rrpv c st w + 1
      else s.repl_rrpv c st w := rfl
  rw [he, if_neg]
  exact fun hc => h ⟨hc.1, hc.2.1⟩

theorem agePlusTwo_frame (s : PolicyState) (cpu set c st : Nat)
    (h : ¬(c = cpu ∧ st = set)) (w : Nat) :
    (agePlusTwo s cpu set).repl_rrpv c st w = s.repl_rrpv c st w := by
  have he : (agePlusTwo s cpu set).repl_rrpv c st w =
      if c = cpu ∧ st = set ∧ w < LLC_WAYS ∧ s.repl_rrpv c st w < MAX_RRPV then
        (if s.repl_rrpv c st w + 2 > MAX_RRPV then MAX_RRPV else s.repl_rrpv c st w + 2)
      else s.repl_rrpv c st w := rfl
  rw [he, if_neg]
  exact fun hc => h ⟨hc.1, hc.2.1⟩

/-- Claim C7: `GetVictimInSet` mutates only the RRPVs of the targeted
(core, set): signatures, reuse bits, the SHCT and the statistics counters are
returned unchanged, and the RRPVs of every other (core, set) are unchanged. -/
theorem c7_victim_frame (s : PolicyState) (cpu set PC paddr accessType : Nat) :
    (GetVictimInSet s cpu set PC paddr accessType).2.repl_sig = s.repl_sig ∧
    (GetVictimInSet s cpu set PC paddr accessType).2.repl_reused = s.repl_reused ∧
    (GetVictimInSet s cpu set PC paddr accessType).2.SHCT = s.SHCT ∧
    (GetVictimInSet s cpu set PC paddr accessType).2.stat_hits = s.stat_hits ∧
    (GetVictimInSet s cpu set PC paddr accessType).2.stat_misses = s.stat_misses ∧
    (∀ c st, ¬(c = cpu ∧ st = set) → ∀ w,
      (GetVictimInSet s cpu set PC paddr accessType).2.repl_rrpv c st w
        = s.repl_rrpv c st w) := by
  unfold GetVictimInSet
  cases h1 : findMaxWay s cpu set with
  | some w =>
    exact ⟨rfl, rfl, rfl, rfl, rfl, fun _ _ _ _ => rfl⟩
  | none =>
    cases h2 : findMaxWay (agePlusOne s cpu set) cpu set with
    | some w =>
      exact ⟨rfl, rfl, rfl, rfl, rfl, fun c st h w => agePlusOne_frame s cpu set c st h w⟩
    | none =>
      refine ⟨rfl, rfl, rfl, rfl, rfl, fun c st h w => ?_⟩
      rw [agePlusTwo_frame (agePlusOne s cpu set) cpu set c st h w]
      exact agePlusOne_frame s cpu set c st h w

/-- Witness for C7 at the initial state and a non-targeted set. -/
theorem c7_victim_frame_witness :
    (GetVictimInSet InitReplacementState 0 0 0 0 0).2.repl_sig
        = InitReplacementState.repl_sig ∧
    (GetVictimInSet InitReplacementState 0 0 0 0 0).2.repl_reused
        = InitReplacementState.repl_reused ∧
    (GetVictimInSet InitReplacementState 0 0 0 0 0).2.SHCT
        = InitReplacementState.SHCT ∧
    (GetVictimInSet InitReplacementState 0 0 0 0 0).2.stat_hits
        = InitReplacementState.stat_hits ∧
    (GetVictimInSet InitReplacementState 0 0 0 0 0).2.stat_misses
        = InitReplacementState.stat_misses ∧
    (∀ c st, ¬(c = 0 ∧ st = 0) → ∀ w,
      (GetVictimInSet InitReplacementState 0 0 0 0 0).2.repl_rrpv c st w
        = InitReplacementState.repl_rrpv c st w) :=
  c7_victim_frame InitReplacementState 0 0 0 0 0

/-- Claim C8: whenever both scans fail (the bounded search observes no line
at `MAX_RRPV`), `GetVictimInSet` returns way 0 after the `+2` aging pass — a
silent deterministic fallback, never an error (the function is total). -/
theorem c8_fallback_way0 (s : PolicyState) (cpu set PC paddr accessType : Nat)
    (h1 : findMaxWay s cpu set = none)
    (h2 : findMaxWay (agePlusOne s cpu set) cpu set = none) :
    GetVictimInSet s cpu set PC paddr accessType
      = (0, agePlusTwo (agePlusOne s cpu set) cpu set) := by
  unfold GetVictimInSet
  rw [h1]
  rw [h2]

/-- Witness for C8 on a set with every line at `rrpv = 1`. -/
theorem c8_fallback_way0_witness :
    findMaxWay allLowState 0 0 = none ∧
    findMaxWay (agePlusOne allLowState 0 0) 0 0 = none ∧
    GetVictimInSet allLowState 0 0 0 0 0
      = (0, agePlusTwo (agePlusOne allLowState 0 0) 0 0) :=
  ⟨by decide, by decide, c8_fallback_way0 allLowState 0 0 0 0 0 (by decide) (by decide)⟩

theorem le_sat_inc (c m : Nat) : c ≤ sat_inc c m := by
  unfold sat_inc
  split <;> omega

theorem sat_inc_of_lt {c m : Nat} (h : c < m) : sat_inc c m = c + 1 := if_pos h

theorem sat_inc_of_not_lt {c m : Nat} (h : ¬ c < m) : sat_inc c m = c := if_neg h

theorem sat_dec_of_pos {c : Nat} (h : 0 < c) : sat_dec c = c - 1 := if_pos h

theorem sat_dec_of_nonpos {c : Nat} (h : ¬ 0 < c) : sat_dec c = c := if_neg h

theorem updTab_self (f : Nat → Nat) (i : Nat) : updTab f i (f i) = f := by
  funext j
  unfold updTab
  split
  · rename_i hj
    rw [hj]
  · rfl

theorem insertionRRPV_tiers (pred : Nat) :
    (THRESHOLD + 2 ≤ pred → insertionRRPV pred = 0) ∧
    (THRESHOLD ≤ pred ∧ pred < THRESHOLD + 2 → insertionRRPV pred = 1) ∧
    (0 < pred ∧ pred < THRESHOLD → insertionRRPV pred = MAX_RRPV - 1) ∧
    (pred = 0 → insertionRRPV pred = MAX_RRPV) := by
  have ht : THRESHOLD = 4 := rfl
  have hm : MAX_RRPV = 7 := rfl
  unfold insertionRRPV
  refine ⟨fun h => ?_, fun h => ?_, fun h => ?_, fun h => ?_⟩ <;>
    (repeat' split) <;> omega

/-- Claim C3: on every miss update, the new stored signature is
`(PC >> SIGN_SHIFT) & (SHCT_SIZE - 1)` (masking by the power-of-two table
size is `% SHCT_SIZE`), the reuse bit is reset to 0, and the installed RRPV
follows the four confidence tiers of `pred`, the SHCT value of the new
signature at the moment of the lookup. -/
theorem c3_miss_install (s : PolicyState) (cpu set way paddr PC victim_addr accessType : Nat) :
    (UpdateReplacementState s cpu set way paddr PC victim_addr accessType false).repl_sig
        cpu set way = (PC >>> SIGN_SHIFT) % SHCT_SIZE ∧
    (UpdateReplacementState s cpu set way paddr PC victim_addr accessType false).repl_reused
        cpu set way = 0 ∧
    (THRESHOLD + 2 ≤ (UpdateReplacementState s cpu set way paddr PC victim_addr accessType
          false).SHCT ((PC >>> SIGN_SHIFT) % SHCT_SIZE) →
      (UpdateReplacementState s cpu set way paddr PC victim_addr accessType false).repl_rrpv
        cpu set way = 0) ∧
    (THRESHOLD ≤ (UpdateReplacementState s cpu set way paddr PC victim_addr accessType
          false).SHCT ((PC >>> SIGN_SHIFT) % SHCT_SIZE) ∧
      (UpdateReplacementState s cpu set way paddr PC victim_addr accessType
          false).SHCT ((PC >>> SIGN_SHIFT) % SHCT_SIZE) < THRESHOLD + 2 →
      (UpdateReplacementState s cpu set way paddr PC victim_addr accessType false).repl_rrpv
        cpu set way = 1) ∧
    (0 < (UpdateReplacementState s cpu set way paddr PC victim_addr accessType
          false).SHCT ((PC >>> SIGN_SHIFT) % SHCT_SIZE) ∧
      (UpdateReplacementState s cpu set way paddr PC victim_addr accessType
          false).SHCT ((PC >>> SIGN_SHIFT) % SHCT_SIZE) < THRESHOLD →
      (UpdateReplacementState s cpu set way paddr PC victim_addr accessType false).repl_rrpv
        cpu set way = MAX_RRPV - 1) ∧
    ((UpdateReplacementState s cpu set way paddr PC victim_addr accessType
          false).SHCT ((PC >>> SIGN_SHIFT) % SHCT_SIZE) = 0 →
      (UpdateReplacementState s cpu set way paddr PC victim_addr accessType false).repl_rrpv
        cpu set way = MAX_RRPV) := by
  have hc : computeSignature PC = (PC >>> SIGN_SHIFT) % SHCT_SIZE := by
    unfold computeSignature
    exact Nat.mod_mod_of_dvd _ ⟨2 ^ 22, by norm_num [SHCT_SIZE]⟩
  have hpred : (UpdateReplacementState s cpu set way paddr PC victim_addr accessType
        false).SHCT ((PC >>> SIGN_SHIFT) % SHCT_SIZE)
      = missLearnSHCT s.SHCT (s.repl_sig cpu set way) (s.repl_reused cpu set way)
          (computeSignature PC) := by
    rw [hc]
    exact rfl
  have hrrpv : (UpdateReplacementState s cpu set way paddr PC victim_addr accessType
        false).repl_rrpv cpu set way
      = insertionRRPV (missLearnSHCT s.SHCT (s.repl_sig cpu set way)
          (s.repl_reused cpu set way) (computeSignature PC)) :=
    updLine_same s.repl_rrpv cpu set way _
  obtain ⟨t1, t2, t3, t4⟩ := insertionRRPV_tiers (missLearnSHCT s.SHCT
    (s.repl_sig cpu set way) (s.repl_reused cpu set way) (computeSignature PC))
  refine ⟨?_, ?_, ?_, ?_, ?_, ?_⟩
  · have h1 : (UpdateReplacementState s cpu set way paddr PC victim_addr accessType
        false).repl_sig cpu set way = computeSignature PC :=
      updLine_same s.repl_sig cpu set way _
    rw [h1, hc]
  · exact updLine_same s.repl_reused cpu set way _
  · intro h
    rw [hpred] at h
    rw [hrrpv]
    exact t1 h
  · intro h
    rw [hpred] at h
    rw [hrrpv]
    exact t2 h
  · intro h
    rw [hpred] at h
    rw [hrrpv]
    exact t3 h
  · intro h
    rw [hpred] at h
    rw [hrrpv]
    exact t4 h

/-- Witness for C3: the miss update at the initial state with `PC = 0`. -/
theorem c3_miss_install_witness :
    (UpdateReplacementState InitReplacementState 0 0 0 0 0 0 0 false).repl_sig 0 0 0
      = (0 >>> SIGN_SHIFT) % SHCT_SIZE ∧
    (UpdateReplacementState InitReplacementState 0 0 0 0 0 0 0 false).repl_reused 0 0 0 = 0 ∧
    (THRESHOLD + 2 ≤ (UpdateReplacementState InitReplacementState 0 0 0 0 0 0 0
          false).SHCT ((0 >>> SIGN_SHIFT) % SHCT_SIZE) →
      (UpdateReplacementState InitReplacementState 0 0 0 0 0 0 0 false).repl_rrpv 0 0 0 = 0) ∧
    (THRESHOLD ≤ (UpdateReplacementState InitReplacementState 0 0 0 0 0 0 0
          false).SHCT ((0 >>> SIGN_SHIFT) % SHCT_SIZE) ∧
      (UpdateReplacementState InitReplacementState 0 0 0 0 0 0 0
          false).SHCT ((0 >>> SIGN_SHIFT) % SHCT_SIZE) < THRESHOLD + 2 →
      (UpdateReplacementState InitReplacementState 0 0 0 0 0 0 0 false).repl_rrpv 0 0 0 = 1) ∧
    (0 < (UpdateReplacementState InitReplacementState 0 0 0 0 0 0 0
          false).SHCT ((0 >>> SIGN_SHIFT) % SHCT_SIZE) ∧
      (UpdateReplacementState InitReplacementState 0 0 0 0 0 0 0
          false).SHCT ((0 >>> SIGN_SHIFT) % SHCT_SIZE) < THRESHOLD →
      (UpdateReplacementState InitReplacementState 0 0 0 0 0 0 0 false).repl_rrpv 0 0 0
        = MAX_RRPV - 1) ∧
    ((UpdateReplacementState InitReplacementState 0 0 0 0 0 0 0
          false).SHCT ((0 >>> SIGN_SHIFT) % SHCT_SIZE) = 0 →
      (UpdateReplacementState InitReplacementState 0 0 0 0 0 0 0 false).repl_rrpv 0 0 0
        = MAX_RRPV) :=
  c3_miss_install InitReplacementState 0 0 0 0 0 0 0

theorem missLearnSHCT_eq (shct : Nat → Nat) (ls lr : Nat) (hsig : ls < SHCT_SIZE) :
    missLearnSHCT shct ls lr
      = if lr ≠ 0 then updTab shct ls (sat_inc (shct ls) SHCT_MAX)
        else updTab shct ls (sat_dec (shct ls)) := by
  have hmod : ls % SHCT_SIZE = ls := Nat.mod_eq_of_lt hsig
  unfold missLearnSHCT
  rw [hmod, if_pos hsig]

/-- Claim C4: on every miss update of a line whose stored signature `S` is in
range, the learning step saturating-increments `SHCT[S]` when the evicted
line was reused and saturating-decrements it otherwise, touches no other SHCT
entry, and hence moves `SHCT[S]` monotonically upward (strictly below the
max) or downward (strictly above 0). -/
theorem c4_miss_learning (s : PolicyState)
    (cpu set way paddr PC victim_addr accessType : Nat)
    (hsig : s.repl_sig cpu set way < SHCT_SIZE) :
    (s.repl_reused cpu set way ≠ 0 →
      (UpdateReplacementState s cpu set way paddr PC victim_addr accessType false).SHCT
          (s.repl_sig cpu set way)
        = sat_inc (s.SHCT (s.repl_sig cpu set way)) SHCT_MAX ∧
      s.SHCT (s.repl_sig cpu set way)
        ≤ (UpdateReplacementState s cpu set way paddr PC victim_addr accessType false).SHCT
            (s.repl_sig cpu set way) ∧
      (s.SHCT (s.repl_sig cpu set way) < SHCT_MAX →
        (UpdateReplacementState s cpu set way paddr PC victim_addr accessType false).SHCT
            (s.repl_sig cpu set way)
          = s.SHCT (s.repl_sig cpu set way) + 1)) ∧
    (s.repl_reused cpu set way = 0 →
      (UpdateReplacementState s cpu set way paddr PC victim_addr accessType false).SHCT
          (s.repl_sig cpu set way)
        = sat_dec (s.SHCT (s.repl_sig cpu set way)) ∧
      (UpdateReplacementState s cpu set way paddr PC victim_addr accessType false).SHCT
          (s.repl_sig cpu set way)
        ≤ s.SHCT (s.repl_sig cpu set way) ∧
      (0 < s.SHCT (s.repl_sig cpu set way) →
        (UpdateReplacementState s cpu set way paddr PC victim_addr accessType false).SHCT
            (s.repl_sig cpu set way)
          = s.SHCT (s.repl_sig cpu set way) - 1)) ∧
    (∀ j, j ≠ s.repl_sig cpu set way →
      (UpdateReplacementState s cpu set way paddr PC victim_addr accessType false).SHCT j
        = s.SHCT j) := by
  have hS : (UpdateReplacementState s cpu set way paddr PC victim_addr accessType
      false).SHCT
      = missLearnSHCT s.SHCT (s.repl_sig cpu set way) (s.repl_reused cpu set way) := rfl
  rw [hS, missLearnSHCT_eq s.SHCT (s.repl_sig cpu set way) (s.repl_reused cpu set way) hsig]
  refine ⟨fun hr => ?_, fun hr => ?_, fun j hj => ?_⟩
  · rw [if_pos hr, updTab_same]
    refine ⟨rfl, le_sat_inc _ _, fun hlt => sat_inc_of_lt hlt⟩
  · rw [if_neg (by simpa using hr), updTab_same]
    refine ⟨rfl, sat_dec_le _, fun hpos => sat_dec_of_pos hpos⟩
  · split
    · rw [updTab_other _ _ _ _ hj]
    · rw [updTab_other _ _ _ _ hj]

/-- Witness for C4: the miss update at the initial state, way (0,0,0),
whose stored signature is 0 and reuse bit is 0. -/
theorem c4_miss_learning_witness :
    InitReplacementState.repl_sig 0 0 0 < SHCT_SIZE ∧
    ((InitReplacementState.repl_reused 0 0 0 = 0 →
      (UpdateReplacementState InitReplacementState 0 0 0 0 0 0 0 false).SHCT
          (InitReplacementState.repl_sig 0 0 0)
        = sat_dec (InitReplacementState.SHCT (InitReplacementState.repl_sig 0 0 0))) ∧
    (∀ j, j ≠ InitReplacementState.repl_sig 0 0 0 →
      (UpdateReplacementState InitReplacementState 0 0 0 0 0 0 0 false).SHCT j
        = InitReplacementState.SHCT j)) := by
  have h := c4_miss_learning InitReplacementState 0 0 0 0 0 0 0 (by decide)
  exact ⟨by decide, fun hr => (h.2.1 hr).1, h.2.2⟩

/-- Claim C5: a hit update increments `hits` (modulo the `uint64` width),
sets the touched way's reuse bit to 1 and its RRPV to 0, saturating-increments
the SHCT entry of the line's currently stored signature, and changes nothing
else: stored signatures, other SHCT entries, other lines' RRPVs and reuse
bits, and the `misses` counter are unchanged. -/
theorem c5_hit_update (s : PolicyState)
    (cpu set way paddr PC victim_addr accessType : Nat)
    (hsig : s.repl_sig cpu set way < SHCT_SIZE) :
    (UpdateReplacementState s cpu set way paddr PC victim_addr accessType true).stat_hits
      = (s.stat_hits + 1) % 2 ^ 64 ∧
    (UpdateReplacementState s cpu set way paddr PC victim_addr accessType true).stat_misses
      = s.stat_misses ∧
    (UpdateReplacementState s cpu set way paddr PC victim_addr accessType true).repl_reused
      cpu set way = 1 ∧
    (UpdateReplacementState s cpu set way paddr PC victim_addr accessType true).repl_rrpv
      cpu set way = 0 ∧
    (UpdateReplacementState s cpu set way paddr PC victim_addr accessType true).repl_sig
      = s.repl_sig ∧
    (UpdateReplacementState s cpu set way paddr PC victim_addr accessType true).SHCT
        (s.repl_sig cpu set way)
      = sat_inc (s.SHCT (s.repl_sig cpu set way)) SHCT_MAX ∧
    (∀ j, j ≠ s.repl_sig cpu set way →
      (UpdateReplacementState s cpu set way paddr PC victim_addr accessType true).SHCT j
        = s.SHCT j) ∧
    (∀ c st w, ¬(c = cpu ∧ st = set ∧ w = way) →
      (UpdateReplacementState s cpu set way paddr PC victim_addr accessType true).repl_rrpv
          c st w = s.repl_rrpv c st w ∧
      (UpdateReplacementState s cpu set way paddr PC victim_addr accessType true).repl_reused
          c st w = s.repl_reused c st w) := by
  have hmod : s.repl_sig cpu set way % SHCT_SIZE = s.repl_sig cpu set way :=
    Nat.mod_eq_of_lt hsig
  have hS : (UpdateReplacementState s cpu set way paddr PC victim_addr accessType
      true).SHCT
      = updTab s.SHCT (s.repl_sig cpu set way)
          (sat_inc (s.SHCT (s.repl_sig cpu set way)) SHCT_MAX) := by
    show (if s.repl_sig cpu set way % SHCT_SIZE < SHCT_SIZE then
        updTab s.SHCT (s.repl_sig cpu set way % SHCT_SIZE)
          (sat_inc (s.SHCT (s.repl_sig cpu set way % SHCT_SIZE)) SHCT_MAX)
      else s.SHCT) = _
    rw [hmod, if_pos hsig]
  refine ⟨rfl, rfl, updLine_same s.repl_reused cpu set way 1,
    updLine_same s.repl_rrpv cpu set way 0, rfl, ?_, ?_, ?_⟩
  · rw [hS, updTab_same]
  · intro j hj
    rw [hS, updTab_other _ _ _ _ hj]
  · intro c st w hcw
    exact ⟨updLine_other s.repl_rrpv cpu set way 0 c st w hcw,
      updLine_other s.repl_reused cpu set way 1 c st w hcw⟩

/-- Witness for C5: the hit update at the initial state, way (0,0,0). -/
theorem c5_hit_update_witness :
    InitReplacementState.repl_sig 0 0 0 < SHCT_SIZE ∧
    (UpdateReplacementState InitReplacementState 0 0 0 0 0 0 0 true).stat_hits
      = (InitReplacementState.stat_hits + 1) % 2 ^ 64 ∧
    (UpdateReplacementState InitReplacementState 0 0 0 0 0 0 0 true).repl_reused 0 0 0 = 1 ∧
    (UpdateReplacementState InitReplacementState 0 0 0 0 0 0 0 true).repl_rrpv 0 0 0 = 0 ∧
    (UpdateReplacementState InitReplacementState 0 0 0 0 0 0 0 true).SHCT
        (InitReplacementState.repl_sig 0 0 0)
      = sat_inc (InitReplacementState.SHCT (InitReplacementState.repl_sig 0 0 0)) SHCT_MAX := by
  have h := c5_hit_update InitReplacementState 0 0 0 0 0 0 0 (by decide)
  exact ⟨by decide, h.1, h.2.2.1, h.2.2.2.1, h.2.2.2.2.2.1⟩

/-- Claim C9: for every SHCT table, every stored signature below `SHCT_SIZE`
and every value of the reuse flag, the baseline variant's eviction-time SHCT
learning step (unmasked indexing, explicit clamp conditionals) produces the
same table as the improved variant's (masked indexing via `sat_inc` /
`sat_dec`). -/
theorem c9_learning_refinement (shct : Nat → Nat) (old_sig old_r : Nat)
    (hsig : old_sig < SHCT_SIZE) :
    baselineLearnSHCT shct old_sig old_r = missLearnSHCT shct old_sig old_r := by
  rw [missLearnSHCT_eq shct old_sig old_r hsig]
  unfold baselineLearnSHCT
  by_cases hr : old_r = 0
  · have hnr : ¬ old_r ≠ 0 := by simpa using hr
    rw [if_neg hnr, if_neg hnr]
    by_cases hpos : shct old_sig > 0
    · rw [if_pos hpos, sat_dec_of_pos hpos]
    · rw [if_neg hpos, sat_dec_of_nonpos hpos, updTab_self]
  · rw [if_pos hr, if_pos hr]
    by_cases hlt : shct old_sig < SHCT_MAX
    · rw [if_pos hlt, sat_inc_of_lt hlt]
    · rw [if_neg hlt, sat_inc_of_not_lt hlt, updTab_self]

/-- Witness for C9 at a concrete table, signature and flag. -/
theorem c9_learning_refinement_witness :
    (5 : Nat) < SHCT_SIZE ∧
    baselineLearnSHCT (fun _ => SHCT_INIT) 5 1
      = missLearnSHCT (fun _ => SHCT_INIT) 5 1 :=
  ⟨by decide, c9_learning_refinement (fun _ => SHCT_INIT) 5 1 (by decide)⟩

theorem updLine_le {m : Nat} (f : Nat → Nat → Nat → Nat)
    (hf : ∀ c st w, f c st w ≤ m) (cpu set way v : Nat) (hv : v ≤ m) :
    ∀ c st w, updLine f cpu set way v c st w ≤ m := by
  intro c st w
  show (if c = cpu ∧ st = set ∧ w = way then v else f c st w) ≤ m
  split
  · exact hv
  · exact hf c st w

theorem updLine_lt {m : Nat} (f : Nat → Nat → Nat → Nat)
    (hf : ∀ c st w, f c st w < m) (cpu set way v : Nat) (hv : v < m) :
    ∀ c st w, updLine f cpu set way v c st w < m := by
  intro c st w
  show (if c = cpu ∧ st = set ∧ w = way then v else f c st w) < m
  split
  · exact hv
  · exact hf c st w

theorem insertionRRPV_le (pred : Nat) : insertionRRPV pred ≤ MAX_RRPV := by
  have hm : MAX_RRPV = 7 := rfl
  unfold insertionRRPV
  repeat' split
  all_goals omega

theorem computeSignature_lt (PC : Nat) : computeSignature PC < SHCT_SIZE :=
  Nat.mod_lt _ (by decide)

theorem agePlusOne_rrpv_le (s : PolicyState) (cpu set : Nat)
    (h : ∀ c st w, s.repl_rrpv c st w ≤ MAX_RRPV) :
    ∀ c st w, (agePlusOne s cpu set).repl_rrpv c st w ≤ MAX_RRPV := by
  intro c st w
  show (if c = cpu ∧ st = set ∧ w < LLC_WAYS ∧ s.repl_rrpv c st w < MAX_RRPV then
      s.repl_rrpv c st w + 1 else s.repl_rrpv c st w) ≤ MAX_RRPV
  split
  · rename_i hc
    omega
  · exact h c st w

theorem agePlusTwo_rrpv_le (s : PolicyState) (cpu set : Nat)
    (h : ∀ c st w, s.repl_rrpv c st w ≤ MAX_RRPV) :
    ∀ c st w, (agePlusTwo s cpu set).repl_rrpv c st w ≤ MAX_RRPV := by
  intro c st w
  show (if c = cpu ∧ st = set ∧ w < LLC_WAYS ∧ s.repl_rrpv c st w < MAX_RRPV then
      (if s.repl_rrpv c st w + 2 > MAX_RRPV then MAX_RRPV else s.repl_rrpv c st w + 2)
    else s.repl_rrpv c st w) ≤ MAX_RRPV
  split
  · split <;> omega
  · exact h c st w

theorem getVictim_rrpv_le (s : PolicyState) (cpu set PC paddr accessType : Nat)
    (h : ∀ c st w, s.repl_rrpv c st w ≤ MAX_RRPV) :
    ∀ c st w, (GetVictimInSet s cpu set PC paddr accessType).2.repl_rrpv c st w
      ≤ MAX_RRPV := by
  unfold GetVictimInSet
  cases findMaxWay s cpu set with
  | some w => exact h
  | none =>
    cases findMaxWay (agePlusOne s cpu set) cpu set with
    | some w => exact agePlusOne_rrpv_le s cpu set h
    | none =>
      exact agePlusTwo_rrpv_le (agePlusOne s cpu set) cpu set
        (agePlusOne_rrpv_le s cpu set h)

theorem getVictim_SHCT_eq (s : PolicyState) (cpu set PC paddr accessType : Nat) :
    (GetVictimInSet s cpu set PC paddr accessType).2.SHCT = s.SHCT := by
  unfold GetVictimInSet
  cases findMaxWay s cpu set with
  | some w => rfl
  | none =>
    cases findMaxWay (agePlusOne s cpu set) cpu set with
    | some w => rfl
    | none => rfl

theorem getVictim_sig_eq (s : PolicyState) (cpu set PC paddr accessType : Nat) :
    (GetVictimInSet s cpu set PC paddr accessType).2.repl_sig = s.repl_sig := by
  unfold GetVictimInSet
  cases findMaxWay s cpu set with
  | some w => rfl
  | none =>
    cases findMaxWay (agePlusOne s cpu set) cpu set with
    | some w => rfl
    | none => rfl

theorem missLearnSHCT_le (shct : Nat → Nat) (ls lr : Nat)
    (h : ∀ i, shct i ≤ SHCT_MAX) :
    ∀ i, missLearnSHCT shct ls lr i ≤ SHCT_MAX := by
  intro i
  unfold missLearnSHCT
  split
  · split
    · show (if i = ls % SHCT_SIZE then sat_inc (shct (ls % SHCT_SIZE)) SHCT_MAX
          else shct i) ≤ SHCT_MAX
      split
      · exact sat_inc_le (h _)
      · exact h i
    · show (if i = ls % SHCT_SIZE then sat_dec (shct (ls % SHCT_SIZE))
          else shct i) ≤ SHCT_MAX
      split
      · exact le_trans (sat_dec_le _) (h _)
      · exact h i
  · exact h i

theorem update_SHCT_le (s : PolicyState)
    (cpu set way paddr PC victim_addr accessType : Nat) (hit : Bool)
    (h : ∀ i, s.SHCT i ≤ SHCT_MAX) :
    ∀ i, (UpdateReplacementState s cpu set way paddr PC victim_addr accessType
      hit).SHCT i ≤ SHCT_MAX := by
  intro i
  cases hit with
  | true =>
    show (if s.repl_sig cpu set way % SHCT_SIZE < SHCT_SIZE then
        updTab s.SHCT (s.repl_sig cpu set way % SHCT_SIZE)
          (sat_inc (s.SHCT (s.repl_sig cpu set way % SHCT_SIZE)) SHCT_MAX)
      else s.SHCT) i ≤ SHCT_MAX
    split
    · show (if i = s.repl_sig cpu set way % SHCT_SIZE then
          sat_inc (s.SHCT (s.repl_sig cpu set way % SHCT_SIZE)) SHCT_MAX
        else s.SHCT i) ≤ SHCT_MAX
      split
      · exact sat_inc_le (h _)
      · exact h i
    · exact h i
  | false =>
    exact missLearnSHCT_le s.SHCT (s.repl_sig cpu set way) (s.repl_reused cpu set way) h i

theorem update_rrpv_le (s : PolicyState)
    (cpu set way paddr PC victim_addr accessType : Nat) (hit : Bool)
    (h : ∀ c st w, s.repl_rrpv c st w ≤ MAX_RRPV) :
    ∀ c st w, (UpdateReplacementState s cpu set way paddr PC victim_addr accessType
      hit).repl_rrpv c st w ≤ MAX_RRPV := by
  cases hit with
  | true =>
    exact updLine_le s.repl_rrpv h cpu set way 0 (Nat.zero_le _)
  | false =>
    exact updLine_le s.repl_rrpv h cpu set way _ (insertionRRPV_le _)

theorem update_sig_lt (s : PolicyState)
    (cpu set way paddr PC victim_addr accessType : Nat) (hit : Bool)
    (h : ∀ c st w, s.repl_sig c st w < SHCT_SIZE) :
    ∀ c st w, (UpdateReplacementState s cpu set way paddr PC victim_addr accessType
      hit).repl_sig c st w < SHCT_SIZE := by
  cases hit with
  | true => exact h
  | false =>
    exact updLine_lt s.repl_sig h cpu set way _ (computeSignature_lt PC)

theorem reachable_invariants (s : PolicyState) (hs : Reachable s) :
    (∀ i, s.SHCT i ≤ SHCT_MAX) ∧
    (∀ c st w, s.repl_rrpv c st w ≤ MAX_RRPV) ∧
    (∀ c st w, s.repl_sig c st w < SHCT_SIZE) := by
  induction hs with
  | init =>
    refine ⟨fun i => ?_, fun c st w => ?_, fun c st w => ?_⟩
    · exact (by decide : SHCT_INIT ≤ SHCT_MAX)
    · exact Nat.le_refl _
    · exact (by decide : (0 : Nat) < SHCT_SIZE)
  | victim s cpu set PC paddr accessType hr ih =>
    refine ⟨?_, ?_, ?_⟩
    · rw [getVictim_SHCT_eq]
      exact ih.1
    · exact getVictim_rrpv_le s cpu set PC paddr accessType ih.2.1
    · rw [getVictim_sig_eq]
      exact ih.2.2
  | update s cpu set way paddr PC victim_addr accessType hit hr ih =>
    exact ⟨update_SHCT_le s cpu set way paddr PC victim_addr accessType hit ih.1,
      update_rrpv_le s cpu set way paddr PC victim_addr accessType hit ih.2.1,
      update_sig_lt s cpu set way paddr PC victim_addr accessType hit ih.2.2⟩

/-- Claim C6: in every reachable state — i.e., after `InitReplacementState`
and any sequence of `GetVictimInSet` and `UpdateReplacementState` calls —
every SHCT entry lies in `[0, SHCT_MAX]` and every line's RRPV lies in
`[0, MAX_RRPV]` (the lower bounds hold by the `Nat` representation; the
saturating helpers and both aging passes never exceed the upper bounds). -/
theorem c6_counter_bounds (s : PolicyState) (hs : Reachable s) :
    (∀ i, s.SHCT i ≤ SHCT_MAX) ∧
    (∀ c st w, s.repl_rrpv c st w ≤ MAX_RRPV) :=
  ⟨(reachable_invariants s hs).1, (reachable_invariants s hs).2.1⟩

/-- Witness for C6 at the initial state. -/
theorem c6_counter_bounds_witness :
    (∀ i, InitReplacementState.SHCT i ≤ SHCT_MAX) ∧
    (∀ c st w, InitReplacementState.repl_rrpv c st w ≤ MAX_RRPV) :=
  c6_counter_bounds InitReplacementState Reachable.init

theorem baselineVictimLoop_sig_eq (fuel : Nat) (s : PolicyState) (cpu set : Nat) :
    (baselineVictimLoop fuel s cpu set).2.repl_sig = s.repl_sig := by
  induction fuel generalizing s with
  | zero => rfl
  | succ n ih =>
    unfold baselineVictimLoop
    cases findMaxWay s cpu set with
    | some w => rfl
    | none => exact ih (agePlusOne s cpu set)

theorem baselineUpdate_sig_lt (s : PolicyState)
    (cpu set way paddr PC victim_addr accessType : Nat) (hit : Bool)
    (h : ∀ c st w, s.repl_sig c st w < SHCT_SIZE) :
    ∀ c st w, (baselineUpdateReplacementState s cpu set way paddr PC victim_addr
      accessType hit).repl_sig c st w < SHCT_SIZE := by
  cases hit with
  | true => exact h
  | false =>
    exact updLine_lt s.repl_sig h cpu set way _ (computeSignature_lt PC)

theorem baselineReachable_sig_lt (s : PolicyState) (hs : BaselineReachable s) :
    ∀ c st w, s.repl_sig c st w < SHCT_SIZE := by
  induction hs with
  | init => exact fun c st w => (by decide : (0 : Nat) < SHCT_SIZE)
  | victim s cpu set PC paddr accessType hr ih =>
    intro c st w
    have he : (baselineGetVictimInSet s cpu set PC paddr accessType).2.repl_sig
        = s.repl_sig := baselineVictimLoop_sig_eq (MAX_RRPV + 1) s cpu set
    rw [he]
    exact ih c st w
  | update s cpu set way paddr PC victim_addr accessType hit hr ih =>
    exact baselineUpdate_sig_lt s cpu set way paddr PC victim_addr accessType hit ih

/-- Claim C10: in every reachable state of the improved variant (after init
and after every update), every stored `repl_sig` entry is strictly below
`SHCT_SIZE`, and masking it with `SHCT_SIZE - 1` (i.e., `% SHCT_SIZE`) is the
identity — so every SHCT index derived from a stored signature on the hit
and miss paths is in bounds and the defensive in-range checks succeed; and
in every reachable state of the baseline variant, every stored `repl_sig`
entry is likewise strictly below `SHCT_SIZE` — so the baseline miss path's
unmasked `SHCT[old_sig]` access, whose index is exactly the stored
signature, is always in bounds as well. -/
theorem c10_sig_in_bounds (s t : PolicyState)
    (hs : Reachable s) (ht : BaselineReachable t) :
    (∀ c st w, s.repl_sig c st w < SHCT_SIZE ∧
      s.repl_sig c st w % SHCT_SIZE = s.repl_sig c st w) ∧
    (∀ c st w, t.repl_sig c st w < SHCT_SIZE) := by
  refine ⟨fun c st w => ?_, baselineReachable_sig_lt t ht⟩
  refine ⟨(reachable_invariants s hs).2.2 c st w, ?_⟩
  exact Nat.mod_eq_of_lt ((reachable_invariants s hs).2.2 c st w)

/-- Witness for C10 at the two initial states and line (0,0,0). -/
theorem c10_sig_in_bounds_witness :
    (InitReplacementState.repl_sig 0 0 0 < SHCT_SIZE ∧
      InitReplacementState.repl_sig 0 0 0 % SHCT_SIZE
        = InitReplacementState.repl_sig 0 0 0) ∧
    InitReplacementState.repl_sig 0 0 0 < SHCT_SIZE :=
  ⟨(c10_sig_in_bounds InitReplacementState InitReplacementState
      Reachable.init BaselineReachable.init).1 0 0 0,
    (c10_sig_in_bounds InitReplacementState InitReplacementState
      Reachable.init BaselineReachable.init).2 0 0 0⟩

end ShipRRIP
